import Mathlib

/-!
Verification development for the VKinder matchmaking bot repository
(`basic_code.py`, `bot_body1.py`, `repo.py`, `vkapi.py`, `core/models.py`,
`core/base_repository.py`).

The repository contains two bot variants:
* `bot_body1.py` — the paginated variant: `Repo` persistence layer
  (`repo.py`), dialog state with optional city and a pagination offset,
  a ten-page discovery loop of page size 50;
* `basic_code.py` — the single-page variant: `core/base_repository.py`
  persistence, dialog state with a default city, explicit target sex,
  one search call per discovery invocation.

Definitions below are shallow embeddings of the Python source: the
database is the tuple of table contents (lists of rows, append =
`session.add`), the external collaborators (VK directory search, profile
lookup, photo lookup) are function parameters, and each handler returns
the updated state, the updated database and the message it sends.
-/

/-- Models Python `str.strip()`: drop whitespace from both ends. -/
def pyStrip (s : String) : String :=
  ⟨((s.data.dropWhile Char.isWhitespace).reverse.dropWhile Char.isWhitespace).reverse⟩

/-- Models Python `str.lower()` restricted to the character sets the bot
compares against: ASCII letters and the Cyrillic block used by the
prompts (`А`–`Я` shift by 0x20, `Ё` maps to `ё`). -/
def pyLowerChar (c : Char) : Char :=
  if 'A' ≤ c ∧ c ≤ 'Z' then Char.ofNat (c.toNat + 32)
  else if 0x410 ≤ c.toNat ∧ c.toNat ≤ 0x42F then Char.ofNat (c.toNat + 0x20)
  else if c.toNat = 0x401 then Char.ofNat 0x451
  else c

/-- Lower-case a whole string, character by character. -/
def pyLower (s : String) : String :=
  ⟨s.data.map pyLowerChar⟩

/-- `beginsWith needle l` is true when `needle` is an initial segment of `l`. -/
def beginsWith : List Char → List Char → Bool
  | [], _ => true
  | _ :: _, [] => false
  | a :: as, b :: bs => a = b && beginsWith as bs

/-- `hasSubList needle l` is true when `needle` occurs contiguously in `l`. -/
def hasSubList (needle : List Char) : List Char → Bool
  | [] => needle.isEmpty
  | c :: rest => beginsWith needle (c :: rest) || hasSubList needle rest

/-- Models the Python substring test `needle in hay` on strings. -/
def strIn (needle hay : String) : Bool :=
  hasSubList needle.data hay.data

/-- Digit list to number, most significant first. -/
def digitsToNat (l : List Char) : Nat :=
  l.foldl (fun acc c => acc * 10 + (c.toNat - '0'.toNat)) 0

/-- Models `int(text.strip())` as used by `handle_age`: strip whitespace,
an optional sign followed by a nonempty run of decimal digits; any other
shape raises `ValueError`, modelled as `none`. -/
def pyInt? (s : String) : Option Int :=
  match (pyStrip s).data with
  | [] => none
  | c :: rest =>
    if c = '-' then
      if rest ≠ [] ∧ rest.all Char.isDigit then some (-(digitsToNat rest : Int)) else none
    else if c = '+' then
      if rest ≠ [] ∧ rest.all Char.isDigit then some (digitsToNat rest : Int) else none
    else if (c :: rest).all Char.isDigit then some (digitsToNat (c :: rest) : Int)
    else none

/-- Python truthiness of an `Optional[int]`: `None` and `0` are falsy. -/
def optNatFalsy : Option Nat → Bool
  | none => true
  | some n => n == 0

/-- `VKSex` enum from `vkapi.py`: `WOMEN = 1`, `MEN = 2`, `ALL = 0`. -/
inductive VKSex where
  | women
  | men
  | all
deriving DecidableEq, Repr

/-- Numeric value of a `VKSex` member, as sent to the VK API. -/
def VKSex.val : VKSex → Nat
  | .women => 1
  | .men => 2
  | .all => 0

/-- A row of the `users` table (`core/models.py`, class `User`),
restricted to the columns the bot writes. -/
structure UserRow where
  vk_id : Nat
  first_name : String
  last_name : String
  has_photo : Bool
deriving DecidableEq, Repr

/-- A row of the `candidates` table (`core/models.py`, class `Candidate`),
restricted to the columns the bot writes. -/
structure CandRow where
  vk_id : Nat
  first_name : String
  last_name : String
  sex : Option Nat
  city : Option String
  has_photo : Bool
deriving DecidableEq, Repr

/-- A row of the `search_history` table (`core/models.py`, class
`SearchHistory`): the per-`(user, candidate)` exclusion record with its
nullable `reaction` column. -/
structure SHRec where
  user_id : Nat
  candidate_id : Nat
  reaction : Option String
deriving DecidableEq, Repr

/-- The database state: one list of rows per table, in insertion order
(`session.add` appends). `favorites` and `blacklist` rows are
`(user_id, candidate_id)` pairs. -/
structure DB where
  users : List UserRow
  candidates : List CandRow
  favorites : List (Nat × Nat)
  blacklist : List (Nat × Nat)
  history : List SHRec
deriving DecidableEq, Repr

/-- The empty database. -/
def emptyDB : DB :=
  { users := [], candidates := [], favorites := [], blacklist := [], history := [] }

/-- `query(SearchHistory).filter(user, candidate).first()`: the first
history row for the pair. -/
def findSH (u c : Nat) : List SHRec → Option SHRec
  | [] => none
  | r :: rest => if r.user_id = u ∧ r.candidate_id = c then some r else findSH u c rest

/-- Membership of a `(user, candidate)` pair in a pair-list table. -/
def pairMem (u c : Nat) : List (Nat × Nat) → Bool
  | [] => false
  | p :: rest => (p.1 == u && p.2 == c) || pairMem u c rest

/-- The `check_reaction` constraint of the `search_history` table
(`core/models.py`): `reaction IN ('licked', 'blocked') OR reaction IS NULL`. -/
def checkReaction (r : Option String) : Prop :=
  r = some "licked" ∨ r = some "blocked" ∨ r = none

/-- `Repo._set_reaction` (`repo.py`): update the first history row for
the pair, creating one when none exists. -/
def setReactionHist (u c : Nat) (reaction : String) : List SHRec → List SHRec
  | [] => [⟨u, c, some reaction⟩]
  | r :: rest =>
    if r.user_id = u ∧ r.candidate_id = c then { r with reaction := some reaction } :: rest
    else r :: setReactionHist u c reaction rest

/-- `Repo.mark_shown`: insert a history row with no reaction unless one
already exists for the pair. -/
def markShownHist (u c : Nat) (h : List SHRec) : List SHRec :=
  if (findSH u c h).isSome then h else h ++ [⟨u, c, none⟩]

/-- `Repo.mark_shown` lifted to the database. -/
def markShown (u c : Nat) (db : DB) : DB :=
  { db with history := markShownHist u c db.history }

/-- `Repo.was_shown`: whether a history row exists for the pair. -/
def wasShown (u c : Nat) (db : DB) : Bool :=
  (findSH u c db.history).isSome

/-- `Repo.in_blacklist`. -/
def inBlacklist (u c : Nat) (db : DB) : Bool :=
  pairMem u c db.blacklist

/-- `Repo.add_blacklist`: no-op when the pair is already blacklisted,
otherwise insert the row and set the reaction to `"blocked"`. -/
def addBlacklist (u c : Nat) (db : DB) : DB :=
  if pairMem u c db.blacklist then db
  else { db with blacklist := db.blacklist ++ [(u, c)],
                 history := setReactionHist u c "blocked" db.history }

/-- `Repo.add_favorite`: no-op when the pair is already a favorite,
otherwise insert the row and set the reaction to `"liked"`. -/
def addFavorite (u c : Nat) (db : DB) : DB :=
  if pairMem u c db.favorites then db
  else { db with favorites := db.favorites ++ [(u, c)],
                 history := setReactionHist u c "liked" db.history }

/-- `Repo.list_favorites`: candidate ids of the user's favorite rows. -/
def listFavorites (u : Nat) (db : DB) : List Nat :=
  (db.favorites.filter (fun p => p.1 == u)).map (·.2)

/-- The stored reaction for a pair: the `reaction` column of its first
history row, `none` when no row exists. -/
def getReaction (u c : Nat) (db : DB) : Option String :=
  match findSH u c db.history with
  | some r => r.reaction
  | none => none

/-- `Repo._normalize_candidate_sex`: keep 0, 1, 2; anything else becomes NULL. -/
def normalizeCandidateSex (sex : Option Nat) : Option Nat :=
  match sex with
  | some s => if s = 0 ∨ s = 1 ∨ s = 2 then some s else none
  | none => none

/-- Replace the row with the same `vk_id`, or append. -/
def upsertRow (row : CandRow) : List CandRow → List CandRow
  | [] => [row]
  | r :: rest => if r.vk_id = row.vk_id then row :: rest else r :: upsertRow row rest

/-- `Repo.upsert_candidate`: normalize the sex, then create or overwrite
the candidate row. -/
def upsertCandidate (row : CandRow) (db : DB) : DB :=
  { db with candidates := upsertRow { row with sex := normalizeCandidateSex row.sex } db.candidates }

/-- Replace the user row with the same `vk_id`, or append. -/
def upsertUserRow (row : UserRow) : List UserRow → List UserRow
  | [] => [row]
  | r :: rest => if r.vk_id = row.vk_id then row :: rest else r :: upsertUserRow row rest

/-- `Repo.upsert_user`. -/
def upsertUser (u : Nat) (first last : String) (db : DB) : DB :=
  { db with users := upsertUserRow ⟨u, first, last, true⟩ db.users }

/-- `SearchHistoryRepository.set_reaction` (`core/base_repository.py`):
update the first history row for the pair; when none exists, do nothing
(no row is created). -/
def bcSetReactionHist (u c : Nat) (reaction : String) : List SHRec → List SHRec
  | [] => []
  | r :: rest =>
    if r.user_id = u ∧ r.candidate_id = c then { r with reaction := some reaction } :: rest
    else r :: bcSetReactionHist u c reaction rest

/-- `SearchHistoryRepository.add_view`: refresh the row's `shown_at` when
it exists (timestamps are not modelled, so a no-op here), otherwise
create a row with no reaction. -/
def bcAddViewHist (u c : Nat) (h : List SHRec) : List SHRec :=
  if (findSH u c h).isSome then h else h ++ [⟨u, c, none⟩]

/-- `VkinderBot.mark_shown` (`basic_code.py`) = `add_view` on the database. -/
def bcMarkShown (u c : Nat) (db : DB) : DB :=
  { db with history := bcAddViewHist u c db.history }

/-- `SearchHistoryRepository.get_viewed_candidates`: candidate ids of all
history rows of the user. -/
def getViewedCandidates (u : Nat) : List SHRec → List Nat
  | [] => []
  | r :: rest =>
    if r.user_id = u then r.candidate_id :: getViewedCandidates u rest
    else getViewedCandidates u rest

/-- Membership in a list of numbers (Python `in`). -/
def natListHas (c : Nat) : List Nat → Bool
  | [] => false
  | x :: rest => x == c || natListHas c rest

/-- `VkinderBot.was_shown` (`basic_code.py`): membership of the candidate
in the user's viewed list. -/
def bcWasShown (u c : Nat) (db : DB) : Bool :=
  natListHas c (getViewedCandidates u db.history)

/-- `BlacklistRepository.is_blocked`. -/
def bcIsBlocked (u c : Nat) (db : DB) : Bool :=
  pairMem u c db.blacklist

/-- `FavoriteRepository.add_to_favorites`: insert unless present. -/
def bcAddToFavorites (u c : Nat) (db : DB) : DB :=
  if pairMem u c db.favorites then db
  else { db with favorites := db.favorites ++ [(u, c)] }

/-- `BlacklistRepository.add_to_blacklist`: insert unless present. -/
def bcAddToBlacklist (u c : Nat) (db : DB) : DB :=
  if pairMem u c db.blacklist then db
  else { db with blacklist := db.blacklist ++ [(u, c)] }

/-- `VkinderBot.add_favorite` (`basic_code.py`): insert the favorite row,
then set the reaction string `"licked"` on the existing history row. -/
def bcAddFavorite (u c : Nat) (db : DB) : DB :=
  let db1 := bcAddToFavorites u c db
  { db1 with history := bcSetReactionHist u c "licked" db1.history }

/-- `VkinderBot.add_blacklist` (`basic_code.py`): insert the blacklist
row, then set the reaction string `"blocked"`. -/
def bcAddBlacklist (u c : Nat) (db : DB) : DB :=
  let db1 := bcAddToBlacklist u c db
  { db1 with history := bcSetReactionHist u c "blocked" db1.history }

/-- `CandidateRepository.create_or_update`: update only the attributes
whose new value is not `None`; `first_name`, `last_name`, `has_photo`
are always passed non-`None` by the bot. -/
def bcMergeRow (old new : CandRow) : CandRow :=
  { vk_id := old.vk_id
    first_name := new.first_name
    last_name := new.last_name
    sex := match new.sex with | some s => some s | none => old.sex
    city := match new.city with | some t => some t | none => old.city
    has_photo := new.has_photo }

/-- `create_or_update` over the candidates table. -/
def bcUpsertRow (row : CandRow) : List CandRow → List CandRow
  | [] => [row]
  | r :: rest => if r.vk_id = row.vk_id then bcMergeRow r row :: rest else r :: bcUpsertRow row rest

/-- `VkinderBot.upsert_candidate` (`basic_code.py`). -/
def bcUpsertCandidate (row : CandRow) (db : DB) : DB :=
  { db with candidates := bcUpsertRow row db.candidates }

/-- `UserRepository.get_user_favorites` followed by the candidate-id
projection of `VkinderBot.list_favorites` (`basic_code.py`): candidate
rows whose id occurs among the user's favorite pairs. -/
def bcListFavorites (u : Nat) (db : DB) : List Nat :=
  let favIds := (db.favorites.filter (fun p => p.1 == u)).map (·.2)
  ((db.candidates.filter (fun r => natListHas r.vk_id favIds)).map (·.vk_id))

/-- `DialogState` of `bot_body1.py`: optional city, optional age, a
pagination offset, the last shown candidate and the awaited onboarding
step (`"city"` or `"age"`). -/
structure DialogState1 where
  city_id : Option Nat := none
  city_title : Option String := none
  age : Option Int := none
  offset : Nat := 0
  last_candidate_id : Option Nat := none
  awaiting : Option String := none
deriving DecidableEq, Repr

/-- `DEFAULT_CITY_ID` of `basic_code.py` (Москва). -/
def DEFAULT_CITY_ID : Nat := 1

/-- `AGE_DELTA` of `basic_code.py`. -/
def AGE_DELTA : Int := 5

/-- `DialogState` of `basic_code.py`: city defaults to Москва, explicit
target sex, awaited step is `"sex"` or `"age"`. -/
structure DialogStateB where
  city_id : Nat := DEFAULT_CITY_ID
  city_title : Option String := none
  age : Option Int := none
  target_sex : VKSex := .all
  last_candidate_id : Option Nat := none
  awaiting : Option String := none
deriving DecidableEq, Repr

/-- `age_from = max(18, age - 5)` as computed in both variants. -/
def ageFrom (age : Int) : Int := max 18 (age - AGE_DELTA)

/-- `age_to = min(99, age + 5)` as computed in both variants. -/
def ageTo (age : Int) : Int := min 99 (age + AGE_DELTA)

/-- A candidate record returned by the directory search as consumed by
`bot_body1.pick_next_candidate` (fields it reads off each element). -/
structure Cand where
  id : Nat
  first_name : String
  last_name : String
  sex : Option Nat
  city_title : Option String
  is_closed : Bool
  can_access_closed : Bool
deriving DecidableEq, Repr

/-- The parameters `bot_body1.pick_next_candidate` passes to
`vk_client.search_users`. -/
structure SearchParams where
  city_id : Nat
  age_from : Int
  age_to : Int
  sex : Nat
  offset : Nat
  count : Nat
deriving DecidableEq, Repr

/-- Sex passed to the search by `bot_body1`: the opposite of the user's
own profile sex (`1` → MEN = 2, `2` → WOMEN = 1, unknown → ALL = 0). -/
def searchSexOf (userSex : Nat) : Nat :=
  if userSex = 1 then VKSex.men.val
  else if userSex = 2 then VKSex.women.val
  else VKSex.all.val

/-- The candidate row `bot_body1.pick_next_candidate` passes to
`repo.upsert_candidate`. -/
def candRow (c : Cand) : CandRow :=
  { vk_id := c.id, first_name := c.first_name, last_name := c.last_name,
    sex := c.sex, city := c.city_title, has_photo := true }

/-- The inner `for cand in users` loop of `bot_body1.pick_next_candidate`:
skip access-restricted, blacklisted and already-shown candidates; on the
first acceptable one, upsert it, mark it shown and return it with its
photos. -/
def scanPage (photos : Nat → List String) (u : Nat) :
    List Cand → DB → Option (Cand × List String × DB)
  | [], _ => none
  | c :: rest, db =>
    if c.is_closed ∧ ¬ c.can_access_closed then scanPage photos u rest db
    else if inBlacklist u c.id db then scanPage photos u rest db
    else if wasShown u c.id db then scanPage photos u rest db
    else some (c, photos c.id, markShown u c.id (upsertCandidate (candRow c) db))

/-- The `for _ in range(10)` paging loop of `bot_body1.pick_next_candidate`:
request a page at the stored offset (a search failure returns `None`
without advancing), advance the offset by 50 after every successful
request, and stop at the first acceptable candidate. -/
def pickLoop (search : SearchParams → Option (List Cand)) (photos : Nat → List String)
    (sx cid : Nat) (a1 a2 : Int) (u : Nat) :
    Nat → DialogState1 → DB → DialogState1 × DB × Option (Cand × List String)
  | 0, st, db => (st, db, none)
  | Nat.succ n, st, db =>
    match search ⟨cid, a1, a2, sx, st.offset, 50⟩ with
    | none => (st, db, none)
    | some page =>
      let st1 := { st with offset := st.offset + 50 }
      match scanPage photos u page db with
      | some (c, ph, db1) => (st1, db1, some (c, ph))
      | none => pickLoop search photos sx cid a1 a2 u n st1 db

/-- `bot_body1.pick_next_candidate`: `None` immediately unless both city
and age are resolved, otherwise run the ten-page loop with the clamped
age band and the opposite-sex filter. The directory search and the photo
lookup are external collaborators passed as functions; `userSex` is the
sex field of the user's own profile. -/
def pickNextCandidate (search : SearchParams → Option (List Cand))
    (photos : Nat → List String) (userSex u : Nat) (st : DialogState1) (db : DB) :
    DialogState1 × DB × Option (Cand × List String) :=
  match st.city_id, st.age with
  | some cid, some age =>
    pickLoop search photos (searchSexOf userSex) cid (ageFrom age) (ageTo age) u 10 st db
  | _, _ => (st, db, none)

/-- Iterate `pick_next_candidate` (discarding results): the state and
database after `n` further discovery invocations. -/
def pickIter (search : SearchParams → Option (List Cand)) (photos : Nat → List String)
    (userSex u : Nat) : Nat → DialogState1 → DB → DialogState1 × DB
  | 0, st, db => (st, db)
  | Nat.succ n, st, db =>
    let r := pickNextCandidate search photos userSex u st db
    pickIter search photos userSex u n r.1 r.2.1

/-- A candidate as returned by `vkapi.search_users` (already filtered to
open profiles with photos) and consumed by `basic_code.pick_next_candidate`. -/
structure BcCand where
  id : Nat
  first_name : String
  last_name : String
  profile_url : String
  sex : Option Nat
  city : Option String
deriving DecidableEq, Repr

/-- The parameters `basic_code.pick_next_candidate` passes to
`vk_user.search_users`. -/
structure BcParams where
  city_id : Nat
  age_from : Int
  age_to : Int
  sex : Nat
deriving DecidableEq, Repr

/-- The candidate row `basic_code.pick_next_candidate` passes to
`upsert_candidate`. -/
def bcCandRow (c : BcCand) : CandRow :=
  { vk_id := c.id, first_name := c.first_name, last_name := c.last_name,
    sex := c.sex, city := c.city, has_photo := true }

/-- The `for cand in users` loop of `basic_code.pick_next_candidate`. -/
def bcScan (photos : Nat → List String) (u : Nat) :
    List BcCand → DB → DB × Option (Nat × String × List String)
  | [], db => (db, none)
  | c :: rest, db =>
    if bcIsBlocked u c.id db then bcScan photos u rest db
    else if bcWasShown u c.id db then bcScan photos u rest db
    else
      let db1 := bcMarkShown u c.id (bcUpsertCandidate (bcCandRow c) db)
      (db1, some (c.id, c.first_name ++ " " ++ c.last_name ++ "\n" ++ c.profile_url,
                  photos c.id))

/-- `basic_code.pick_next_candidate`: `None` immediately when the age is
unresolved, otherwise one search call with the clamped age band, the
stored city and the selected target sex, scanning the single result page. -/
def bcPick (search : BcParams → List BcCand) (photos : Nat → List String)
    (u : Nat) (st : DialogStateB) (db : DB) : DB × Option (Nat × String × List String) :=
  match st.age with
  | none => (db, none)
  | some age =>
    bcScan photos u (search ⟨st.city_id, ageFrom age, ageTo age, st.target_sex.val⟩) db

/-- The database after `n` further `basic_code` discovery invocations
(the dialog state is not mutated by `pick_next_candidate` itself). -/
def bcPickIter (search : BcParams → List BcCand) (photos : Nat → List String)
    (u : Nat) (st : DialogStateB) : Nat → DB → DB
  | 0, db => db
  | Nat.succ n, db => bcPickIter search photos u st n (bcPick search photos u st db).1

/-- Error message of `handle_age` (both variants). -/
def msgAgeErr : String := "Возраст должен быть числом 18–99. Например: 25"

/-- Success message of `bot_body1.handle_age`. -/
def msgAgeOk1 : String := "Ок. Жми «Дальше» 👇"

/-- Success message of `basic_code.handle_age`, showing the clamped band. -/
def msgAgeOkB (age : Int) : String :=
  "Принято ✅\nБуду искать кандидатов " ++ toString (ageFrom age) ++ "–" ++
    toString (ageTo age) ++ " лет.\nЖми «Дальше» 👇"

/-- `bot_body1.handle_age`: parse the text as an integer; out of
[18, 99] or unparsable re-prompts and leaves the state unchanged;
otherwise store the age and clear `awaiting`. -/
def handleAge1 (st : DialogState1) (text : String) : DialogState1 × String :=
  match pyInt? text with
  | none => (st, msgAgeErr)
  | some a =>
    if a < 18 ∨ a > 99 then (st, msgAgeErr)
    else ({ st with age := some a, awaiting := none }, msgAgeOk1)

/-- `basic_code.handle_age`: same validation, richer success message. -/
def handleAgeB (st : DialogStateB) (text : String) : DialogStateB × String :=
  match pyInt? text with
  | none => (st, msgAgeErr)
  | some a =>
    if a < 18 ∨ a > 99 then (st, msgAgeErr)
    else ({ st with age := some a, awaiting := none }, msgAgeOkB a)

/-- Re-prompt of `basic_code.handle_sex` when no rule matches. -/
def msgSexRetry : String := "Выбери вариант кнопкой 👇"

/-- Success message of `basic_code.handle_sex`. -/
def msgSexOk (who : String) : String :=
  "Ок, ищем: " ++ who ++ ".\n\nТеперь напиши свой возраст числом (18–99).\n" ++
    "Поиск будет по возрасту: (твой возраст − " ++ toString AGE_DELTA ++
    ") … (твой возраст + " ++ toString AGE_DELTA ++ ")."

/-- `basic_code.handle_sex`: lower-case the stripped input and test the
substrings "жен", "муж", "неваж" in that order; the first match sets
`target_sex` and advances to the age step; no match re-prompts and
leaves the state unchanged. -/
def handleSexB (st : DialogStateB) (text : String) : DialogStateB × String :=
  let low := pyLower (pyStrip text)
  if strIn "жен" low then
    ({ st with target_sex := .women, awaiting := some "age" }, msgSexOk "женщин")
  else if strIn "муж" low then
    ({ st with target_sex := .men, awaiting := some "age" }, msgSexOk "мужчин")
  else if strIn "неваж" low then
    ({ st with target_sex := .all, awaiting := some "age" }, msgSexOk "всех")
  else (st, msgSexRetry)

/-- Guidance message when a reaction command arrives with no active
candidate (both variants). -/
def msgPressNext : String := "Сначала нажми «Дальше»."

/-- Confirmation of `handle_favorite`. -/
def msgFavAdded : String := "Добавил в избранное ⭐️"

/-- Confirmation of `handle_blacklist`. -/
def msgBlAdded : String := "Добавил в чёрный список ⛔️"

/-- `bot_body1.handle_favorite`: `if not st.last_candidate_id` (falsy:
`None` or `0`) only sends the guidance message; otherwise record the
favorite for the last shown candidate. -/
def handleFavorite1 (u : Nat) (st : DialogState1) (db : DB) : DialogState1 × DB × String :=
  match st.last_candidate_id with
  | none => (st, db, msgPressNext)
  | some cid =>
    if cid = 0 then (st, db, msgPressNext)
    else (st, addFavorite u cid db, msgFavAdded)

/-- `bot_body1.handle_blacklist`. -/
def handleBlacklist1 (u : Nat) (st : DialogState1) (db : DB) : DialogState1 × DB × String :=
  match st.last_candidate_id with
  | none => (st, db, msgPressNext)
  | some cid =>
    if cid = 0 then (st, db, msgPressNext)
    else (st, addBlacklist u cid db, msgBlAdded)

/-- `basic_code.handle_favorite`. -/
def handleFavoriteB (u : Nat) (st : DialogStateB) (db : DB) : DialogStateB × DB × String :=
  match st.last_candidate_id with
  | none => (st, db, msgPressNext)
  | some cid =>
    if cid = 0 then (st, db, msgPressNext)
    else (st, bcAddFavorite u cid db, msgFavAdded)

/-- `basic_code.handle_blacklist`. -/
def handleBlacklistB (u : Nat) (st : DialogStateB) (db : DB) : DialogStateB × DB × String :=
  match st.last_candidate_id with
  | none => (st, db, msgPressNext)
  | some cid =>
    if cid = 0 then (st, db, msgPressNext)
    else (st, bcAddBlacklist u cid db, msgBlAdded)

/-- The `city` sub-dictionary of a VK `users.get` response. -/
structure CityRef where
  id : Nat
  title : Option String
deriving DecidableEq, Repr

/-- The own-profile record consumed by `bot_body1.handle_start`. -/
structure Profile1 where
  first_name : String
  last_name : String
  sex : Nat
  city : Option CityRef
deriving DecidableEq, Repr

/-- Failure message of `bot_body1.handle_start`. -/
def msgProfileErr1 : String :=
  "Не смог получить данные профиля. Проверь пользовательский токен VK_TOKEN."

/-- City prompt of `bot_body1.handle_start`. -/
def msgAskCity : String := "Напиши город (например: Москва)."

/-- Age prompt of `bot_body1.handle_start`. -/
def msgAskAge : String := "Напиши возраст числом (например: 25)."

/-- `bot_body1.handle_start`: on profile-lookup failure (`none`) only an
error message is sent; otherwise upsert the user, adopt the profile city
when present (`if city and city.get("id")`), then await the city when
`st.city_id` is falsy, else await the age. `last_candidate_id` is not
touched anywhere in this handler. -/
def handleStart1 (profile : Option Profile1) (u : Nat) (st : DialogState1) (db : DB) :
    DialogState1 × DB × String :=
  match profile with
  | none => (st, db, msgProfileErr1)
  | some p =>
    let db1 := upsertUser u p.first_name p.last_name db
    let st1 :=
      match p.city with
      | some c =>
        if c.id ≠ 0 then { st with city_id := some c.id, city_title := c.title } else st
      | none => st
    if optNatFalsy st1.city_id then ({ st1 with awaiting := some "city" }, db1, msgAskCity)
    else ({ st1 with awaiting := some "age" }, db1, msgAskAge)

/-- The `VKUser` record `vkapi.get_user_profile` hands to
`basic_code.handle_start` (fields it reads). -/
structure ProfileB where
  first_name : Option String
  last_name : String
  sex : Option Nat
  city : Option String
deriving DecidableEq, Repr

/-- Python `x or y` for an optional string `x` (empty string is falsy). -/
def pyOrStr (x : Option String) (y : String) : String :=
  match x with
  | some s => if s = "" then y else s
  | none => y

/-- Python `x or y` for two optional strings. -/
def pyOrOptStr (x y : Option String) : Option String :=
  match x with
  | some s => if s = "" then y else some s
  | none => y

/-- Failure message of `basic_code.handle_start`. -/
def msgProfileErrB : String := "Не смог получить данные профиля. Проверь VK_TOKEN."

/-- The start-message prefix of `basic_code.handle_start` (`city_line`
carries a trailing space, stripped later by `start_settings_flow`). -/
def startPrefixB (title : Option String) : String :=
  "Старт ✅\n" ++ "Город поиска: " ++ pyOrStr title "не указан" ++ " "

/-- `basic_code.handle_start`: clear `last_candidate_id` and `awaiting`
first; on profile failure send an error; otherwise upsert the user, set
the city (`getattr(me, "city_id", None)` is always `None` because
`VKUser` has no `city_id` field, so `DEFAULT_CITY_ID` is used), and
enter the settings flow, which sets `awaiting` to the sex step. -/
def handleStartB (profile : Option ProfileB) (u : Nat) (st : DialogStateB) (db : DB) :
    DialogStateB × DB × String :=
  let st0 := { st with last_candidate_id := none, awaiting := none }
  match profile with
  | none => (st0, db, msgProfileErrB)
  | some me =>
    let db1 := upsertUser u (pyOrStr me.first_name "") (pyOrStr (some me.last_name) "") db
    let st1 := { st0 with
      city_id := DEFAULT_CITY_ID,
      city_title := pyOrOptStr me.city (if DEFAULT_CITY_ID = 1 then some "Москва" else none) }
    let st2 := { st1 with awaiting := some "sex" }
    (st2, db1, pyStrip (startPrefixB st1.city_title) ++ "\n\n" ++ "Кого ищем?")

/-- A concrete open candidate used in witness scenarios. -/
def demoCand7 : Cand :=
  { id := 7
    first_name := "Анна"
    last_name := "Иванова"
    sex := some 1
    city_title := some "Москва"
    is_closed := false
    can_access_closed := false }

/-- A second concrete open candidate. -/
def demoCand8 : Cand := { demoCand7 with id := 8 }

/-- A directory search returning the same two-candidate page at every offset. -/
def demoSearch : SearchParams → Option (List Cand) := fun _ => some [demoCand7, demoCand8]

/-- A `Ready` dialog state of the paginated variant. -/
def demoReadySt : DialogState1 := { city_id := some 1, age := some 25 }

/-- A concrete candidate of the single-page variant. -/
def demoBc7 : BcCand :=
  { id := 7
    first_name := "Анна"
    last_name := "Иванова"
    profile_url := "https://vk.com/id7"
    sex := some 1
    city := some "Москва" }

/-- A second concrete candidate of the single-page variant. -/
def demoBc8 : BcCand := { demoBc7 with id := 8, profile_url := "https://vk.com/id8" }

/-- A single-page search returning the same two candidates every time. -/
def demoBcSearch : BcParams → List BcCand := fun _ => [demoBc7, demoBc8]

/-- A `Ready` dialog state of the single-page variant. -/
def demoBcSt : DialogStateB := { age := some 25 }

/-- A concrete own profile with a resolvable city, for `handle_start`. -/
def demoProfile1 : Profile1 :=
  { first_name := "Пётр"
    last_name := "Петров"
    sex := 2
    city := some { id := 1, title := some "Москва" } }

/-- A dialog state that has already shown candidate 42. -/
def demoShownSt : DialogState1 :=
  { city_id := some 1, age := some 25, last_candidate_id := some 42 }

/-- A concrete `VKUser`-shaped own profile for `basic_code.handle_start`. -/
def demoProfileB : ProfileB :=
  { first_name := some "Пётр"
    last_name := "Петров"
    sex := some 2
    city := some "Москва" }

/-- A candidate the `bot_body1` discovery loop will skip: access
restricted (closed without viewer access), blacklisted, or already shown. -/
def excludedCand (u : Nat) (db : DB) (c : Cand) : Prop :=
  (c.is_closed = true ∧ c.can_access_closed = false) ∨
    inBlacklist u c.id db = true ∨ wasShown u c.id db = true

theorem findSH_setReactionHist (u c : Nat) (s : String) :
    ∀ h : List SHRec, findSH u c (setReactionHist u c s h) = some ⟨u, c, some s⟩ := by
  intro h
  induction h with
  | nil => simp [setReactionHist, findSH]
  | cons r rest ih =>
    by_cases hrc : r.user_id = u ∧ r.candidate_id = c
    · obtain ⟨h1, h2⟩ := hrc
      simp [setReactionHist, findSH, h1, h2]
    · simp only [setReactionHist, if_neg hrc, findSH]
      exact ih

theorem findSH_bcSetReactionHist (u c : Nat) (s : String) :
    ∀ h : List SHRec, (findSH u c h).isSome = true →
      findSH u c (bcSetReactionHist u c s h) = some ⟨u, c, some s⟩ := by
  intro h
  induction h with
  | nil => simp [findSH]
  | cons r rest ih =>
    intro hsome
    by_cases hrc : r.user_id = u ∧ r.candidate_id = c
    · obtain ⟨h1, h2⟩ := hrc
      simp [bcSetReactionHist, findSH, h1, h2]
    · simp only [bcSetReactionHist, if_neg hrc, findSH]
      apply ih
      simpa [findSH, if_neg hrc] using hsome

theorem findSH_append_isSome (u c : Nat) (l : List SHRec) :
    ∀ h : List SHRec, (findSH u c h).isSome = true →
      (findSH u c (h ++ l)).isSome = true := by
  intro h
  induction h with
  | nil => simp [findSH]
  | cons r rest ih =>
    intro hsome
    by_cases hrc : r.user_id = u ∧ r.candidate_id = c
    · simp [findSH, hrc]
    · simp only [List.cons_append, findSH, if_neg hrc]
      apply ih
      simpa [findSH, if_neg hrc] using hsome

theorem findSH_append_self (u c : Nat) (x : Option String) :
    ∀ h : List SHRec, (findSH u c (h ++ [⟨u, c, x⟩])).isSome = true := by
  intro h
  induction h with
  | nil => simp [findSH]
  | cons r rest ih =>
    by_cases hrc : r.user_id = u ∧ r.candidate_id = c
    · simp [findSH, hrc]
    · simp only [List.cons_append, findSH, if_neg hrc]
      exact ih

theorem wasShown_markShown_mono (u x v c : Nat) (db : DB) :
    wasShown u x db = true → wasShown u x (markShown v c db) = true := by
  intro hx
  simp only [wasShown, markShown, markShownHist] at *
  split
  · exact hx
  · exact findSH_append_isSome u x _ db.history hx

theorem wasShown_markShown_self (u c : Nat) (db : DB) :
    wasShown u c (markShown u c db) = true := by
  simp only [wasShown, markShown, markShownHist]
  split
  · assumption
  · exact findSH_append_self u c none db.history

theorem upsertCandidate_history (row : CandRow) (db : DB) :
    (upsertCandidate row db).history = db.history := rfl

theorem wasShown_upsertCandidate (u x : Nat) (row : CandRow) (db : DB) :
    wasShown u x (upsertCandidate row db) = wasShown u x db := rfl

theorem scanPage_some_not_shown (photos : Nat → List String) (u : Nat) :
    ∀ (page : List Cand) (db : DB) (c : Cand) (ph : List String) (db' : DB),
      scanPage photos u page db = some (c, ph, db') → wasShown u c.id db = false := by
  intro page
  induction page with
  | nil => intro db c ph db' h; simp [scanPage] at h
  | cons x rest ih =>
    intro db c ph db' h
    simp only [scanPage] at h
    by_cases h1 : x.is_closed ∧ ¬ x.can_access_closed
    · rw [if_pos h1] at h
      exact ih db c ph db' h
    · rw [if_neg h1] at h
      by_cases h2 : (inBlacklist u x.id db : Prop)
      · rw [if_pos h2] at h
        exact ih db c ph db' h
      · rw [if_neg h2] at h
        by_cases h3 : (wasShown u x.id db : Prop)
        · rw [if_pos h3] at h
          exact ih db c ph db' h
        · rw [if_neg h3] at h
          simp only [Option.some.injEq, Prod.mk.injEq] at h
          obtain ⟨rfl, -, -⟩ := h
          simpa using h3

theorem scanPage_some_shown (photos : Nat → List String) (u : Nat) :
    ∀ (page : List Cand) (db : DB) (c : Cand) (ph : List String) (db' : DB),
      scanPage photos u page db = some (c, ph, db') → wasShown u c.id db' = true := by
  intro page
  induction page with
  | nil => intro db c ph db' h; simp [scanPage] at h
  | cons x rest ih =>
    intro db c ph db' h
    simp only [scanPage] at h
    by_cases h1 : x.is_closed ∧ ¬ x.can_access_closed
    · rw [if_pos h1] at h
      exact ih db c ph db' h
    · rw [if_neg h1] at h
      by_cases h2 : (inBlacklist u x.id db : Prop)
      · rw [if_pos h2] at h
        exact ih db c ph db' h
      · rw [if_neg h2] at h
        by_cases h3 : (wasShown u x.id db : Prop)
        · rw [if_pos h3] at h
          exact ih db c ph db' h
        · rw [if_neg h3] at h
          simp only [Option.some.injEq, Prod.mk.injEq] at h
          obtain ⟨rfl, -, rfl⟩ := h
          exact wasShown_markShown_self u x.id (upsertCandidate (candRow x) db)

theorem scanPage_mono (photos : Nat → List String) (u : Nat) :
    ∀ (page : List Cand) (db : DB) (c : Cand) (ph : List String) (db' : DB),
      scanPage photos u page db = some (c, ph, db') →
      ∀ x : Nat, wasShown u x db = true → wasShown u x db' = true := by
  intro page
  induction page with
  | nil => intro db c ph db' h; simp [scanPage] at h
  | cons y rest ih =>
    intro db c ph db' h x hx
    simp only [scanPage] at h
    by_cases h1 : y.is_closed ∧ ¬ y.can_access_closed
    · rw [if_pos h1] at h
      exact ih db c ph db' h x hx
    · rw [if_neg h1] at h
      by_cases h2 : (inBlacklist u y.id db : Prop)
      · rw [if_pos h2] at h
        exact ih db c ph db' h x hx
      · rw [if_neg h2] at h
        by_cases h3 : (wasShown u y.id db : Prop)
        · rw [if_pos h3] at h
          exact ih db c ph db' h x hx
        · rw [if_neg h3] at h
          simp only [Option.some.injEq, Prod.mk.injEq] at h
          obtain ⟨-, -, rfl⟩ := h
          exact wasShown_markShown_mono u x u y.id (upsertCandidate (candRow y) db) hx

theorem pickLoop_mono (search : SearchParams → Option (List Cand))
    (photos : Nat → List String) (sx cid : Nat) (a1 a2 : Int) (u : Nat) :
    ∀ (n : Nat) (st : DialogState1) (db : DB) (st' : DialogState1) (db' : DB)
      (r : Option (Cand × List String)),
      pickLoop search photos sx cid a1 a2 u n st db = (st', db', r) →
      ∀ x : Nat, wasShown u x db = true → wasShown u x db' = true := by
  intro n
  induction n with
  | zero =>
    intro st db st' db' r h x hx
    simp only [pickLoop, Prod.mk.injEq] at h
    obtain ⟨-, rfl, -⟩ := h
    exact hx
  | succ n ih =>
    intro st db st' db' r h x hx
    cases hs : search ⟨cid, a1, a2, sx, st.offset, 50⟩ with
    | none =>
      simp only [pickLoop, hs, Prod.mk.injEq] at h
      obtain ⟨-, rfl, -⟩ := h
      exact hx
    | some page =>
      simp only [pickLoop, hs] at h
      cases hsc : scanPage photos u page db with
      | none =>
        simp only [hsc] at h
        exact ih _ db st' db' r h x hx
      | some v =>
        obtain ⟨c, ph, db1⟩ := v
        simp only [hsc, Prod.mk.injEq] at h
        obtain ⟨-, rfl, -⟩ := h
        exact scanPage_mono photos u page db c ph db1 hsc x hx

theorem pickLoop_some_shown (search : SearchParams → Option (List Cand))
    (photos : Nat → List String) (sx cid : Nat) (a1 a2 : Int) (u : Nat) :
    ∀ (n : Nat) (st : DialogState1) (db : DB) (st' : DialogState1) (db' : DB)
      (c : Cand) (ph : List String),
      pickLoop search photos sx cid a1 a2 u n st db = (st', db', some (c, ph)) →
      wasShown u c.id db' = true := by
  intro n
  induction n with
  | zero =>
    intro st db st' db' c ph h
    simp [pickLoop] at h
  | succ n ih =>
    intro st db st' db' c ph h
    cases hs : search ⟨cid, a1, a2, sx, st.offset, 50⟩ with
    | none =>
      simp only [pickLoop, hs, Prod.mk.injEq] at h
      exact absurd h.2.2 (by simp)
    | some page =>
      simp only [pickLoop, hs] at h
      cases hsc : scanPage photos u page db with
      | none =>
        simp only [hsc] at h
        exact ih _ db st' db' c ph h
      | some v =>
        obtain ⟨c0, ph0, db1⟩ := v
        simp only [hsc, Prod.mk.injEq, Option.some.injEq] at h
        obtain ⟨-, rfl, rfl, -⟩ := h
        exact scanPage_some_shown photos u page db c0 ph0 db1 hsc

theorem pickLoop_some_not_shown (search : SearchParams → Option (List Cand))
    (photos : Nat → List String) (sx cid : Nat) (a1 a2 : Int) (u : Nat) :
    ∀ (n : Nat) (st : DialogState1) (db : DB) (st' : DialogState1) (db' : DB)
      (c : Cand) (ph : List String),
      pickLoop search photos sx cid a1 a2 u n st db = (st', db', some (c, ph)) →
      wasShown u c.id db = false := by
  intro n
  induction n with
  | zero =>
    intro st db st' db' c ph h
    simp [pickLoop] at h
  | succ n ih =>
    intro st db st' db' c ph h
    cases hs : search ⟨cid, a1, a2, sx, st.offset, 50⟩ with
    | none =>
      simp only [pickLoop, hs, Prod.mk.injEq] at h
      exact absurd h.2.2 (by simp)
    | some page =>
      simp only [pickLoop, hs] at h
      cases hsc : scanPage photos u page db with
      | none =>
        simp only [hsc] at h
        exact ih _ db st' db' c ph h
      | some v =>
        obtain ⟨c0, ph0, db1⟩ := v
        simp only [hsc, Prod.mk.injEq, Option.some.injEq] at h
        obtain ⟨-, -, rfl, -⟩ := h
        exact scanPage_some_not_shown photos u page db c0 ph0 db1 hsc

theorem pick_mono (search : SearchParams → Option (List Cand))
    (photos : Nat → List String) (userSex u : Nat) (st : DialogState1) (db : DB)
    (st' : DialogState1) (db' : DB) (r : Option (Cand × List String)) :
    pickNextCandidate search photos userSex u st db = (st', db', r) →
    ∀ x : Nat, wasShown u x db = true → wasShown u x db' = true := by
  intro h x hx
  cases hc : st.city_id with
  | none =>
    simp only [pickNextCandidate, hc, Prod.mk.injEq] at h
    obtain ⟨-, rfl, -⟩ := h
    exact hx
  | some cid =>
    cases ha : st.age with
    | none =>
      simp only [pickNextCandidate, hc, ha, Prod.mk.injEq] at h
      obtain ⟨-, rfl, -⟩ := h
      exact hx
    | some age =>
      simp only [pickNextCandidate, hc, ha] at h
      exact pickLoop_mono search photos (searchSexOf userSex) cid (ageFrom age) (ageTo age)
        u 10 st db st' db' r h x hx

theorem pick_some_shown (search : SearchParams → Option (List Cand))
    (photos : Nat → List String) (userSex u : Nat) (st : DialogState1) (db : DB)
    (st' : DialogState1) (db' : DB) (c : Cand) (ph : List String) :
    pickNextCandidate search photos userSex u st db = (st', db', some (c, ph)) →
    wasShown u c.id db' = true := by
  intro h
  cases hc : st.city_id with
  | none =>
    simp only [pickNextCandidate, hc, Prod.mk.injEq] at h
    exact absurd h.2.2 (by simp)
  | some cid =>
    cases ha : st.age with
    | none =>
      simp only [pickNextCandidate, hc, ha, Prod.mk.injEq] at h
      exact absurd h.2.2 (by simp)
    | some age =>
      simp only [pickNextCandidate, hc, ha] at h
      exact pickLoop_some_shown search photos (searchSexOf userSex) cid (ageFrom age)
        (ageTo age) u 10 st db st' db' c ph h

theorem pick_some_not_shown (search : SearchParams → Option (List Cand))
    (photos : Nat → List String) (userSex u : Nat) (st : DialogState1) (db : DB)
    (st' : DialogState1) (db' : DB) (c : Cand) (ph : List String) :
    pickNextCandidate search photos userSex u st db = (st', db', some (c, ph)) →
    wasShown u c.id db = false := by
  intro h
  cases hc : st.city_id with
  | none =>
    simp only [pickNextCandidate, hc, Prod.mk.injEq] at h
    exact absurd h.2.2 (by simp)
  | some cid =>
    cases ha : st.age with
    | none =>
      simp only [pickNextCandidate, hc, ha, Prod.mk.injEq] at h
      exact absurd h.2.2 (by simp)
    | some age =>
      simp only [pickNextCandidate, hc, ha] at h
      exact pickLoop_some_not_shown search photos (searchSexOf userSex) cid (ageFrom age)
        (ageTo age) u 10 st db st' db' c ph h

theorem pickIter_mono (search : SearchParams → Option (List Cand))
    (photos : Nat → List String) (userSex u : Nat) :
    ∀ (n : Nat) (st : DialogState1) (db : DB) (st2 : DialogState1) (db2 : DB),
      pickIter search photos userSex u n st db = (st2, db2) →
      ∀ x : Nat, wasShown u x db = true → wasShown u x db2 = true := by
  intro n
  induction n with
  | zero =>
    intro st db st2 db2 h x hx
    simp only [pickIter, Prod.mk.injEq] at h
    obtain ⟨-, rfl⟩ := h
    exact hx
  | succ n ih =>
    intro st db st2 db2 h x hx
    simp only [pickIter] at h
    have hmid := pick_mono search photos userSex u st db
      (pickNextCandidate search photos userSex u st db).1
      (pickNextCandidate search photos userSex u st db).2.1
      (pickNextCandidate search photos userSex u st db).2.2 rfl x hx
    exact ih _ _ st2 db2 h x hmid

theorem getViewed_append (u : Nat) (l : List SHRec) :
    ∀ h : List SHRec,
      getViewedCandidates u (h ++ l) = getViewedCandidates u h ++ getViewedCandidates u l := by
  intro h
  induction h with
  | nil => simp [getViewedCandidates]
  | cons r rest ih =>
    by_cases hr : r.user_id = u
    · simp [getViewedCandidates, hr, ih]
    · simp [getViewedCandidates, hr, ih]

theorem natListHas_append (c : Nat) (l2 : List Nat) :
    ∀ l1 : List Nat, natListHas c (l1 ++ l2) = (natListHas c l1 || natListHas c l2) := by
  intro l1
  induction l1 with
  | nil => simp [natListHas]
  | cons x rest ih => simp [natListHas, ih, Bool.or_assoc]

theorem natListHas_of_findSH (u c : Nat) :
    ∀ h : List SHRec, (findSH u c h).isSome = true →
      natListHas c (getViewedCandidates u h) = true := by
  intro h
  induction h with
  | nil => simp [findSH]
  | cons r rest ih =>
    intro hsome
    by_cases hrc : r.user_id = u ∧ r.candidate_id = c
    · simp [getViewedCandidates, hrc.1, natListHas, hrc.2]
    · have hrest : (findSH u c rest).isSome = true := by
        simpa [findSH, if_neg hrc] using hsome
      by_cases hr : r.user_id = u
      · simp [getViewedCandidates, hr, natListHas, ih hrest]
      · simp [getViewedCandidates, hr, ih hrest]

theorem bcWasShown_bcMarkShown_self (u c : Nat) (db : DB) :
    bcWasShown u c (bcMarkShown u c db) = true := by
  simp only [bcWasShown, bcMarkShown, bcAddViewHist]
  split
  · next hfound => exact natListHas_of_findSH u c db.history hfound
  · rw [getViewed_append, natListHas_append]
    simp [getViewedCandidates, natListHas]

theorem bcWasShown_bcMarkShown_mono (u x v c : Nat) (db : DB) :
    bcWasShown u x db = true → bcWasShown u x (bcMarkShown v c db) = true := by
  intro hx
  simp only [bcWasShown, bcMarkShown, bcAddViewHist] at *
  split
  · exact hx
  · rw [getViewed_append, natListHas_append, hx]
    simp

theorem bcUpsertCandidate_history (row : CandRow) (db : DB) :
    (bcUpsertCandidate row db).history = db.history := rfl

theorem bcScan_some_not_shown (photos : Nat → List String) (u : Nat) :
    ∀ (page : List BcCand) (db : DB) (cid : Nat) (t : String) (ph : List String) (db' : DB),
      bcScan photos u page db = (db', some (cid, t, ph)) → bcWasShown u cid db = false := by
  intro page
  induction page with
  | nil => intro db cid t ph db' h; simp [bcScan] at h
  | cons x rest ih =>
    intro db cid t ph db' h
    simp only [bcScan] at h
    by_cases h1 : (bcIsBlocked u x.id db : Prop)
    · rw [if_pos h1] at h
      exact ih db cid t ph db' h
    · rw [if_neg h1] at h
      by_cases h2 : (bcWasShown u x.id db : Prop)
      · rw [if_pos h2] at h
        exact ih db cid t ph db' h
      · rw [if_neg h2] at h
        simp only [Prod.mk.injEq, Option.some.injEq] at h
        obtain ⟨-, rfl, -, -⟩ := h
        simpa using h2

theorem bcScan_some_shown (photos : Nat → List String) (u : Nat) :
    ∀ (page : List BcCand) (db : DB) (cid : Nat) (t : String) (ph : List String) (db' : DB),
      bcScan photos u page db = (db', some (cid, t, ph)) → bcWasShown u cid db' = true := by
  intro page
  induction page with
  | nil => intro db cid t ph db' h; simp [bcScan] at h
  | cons x rest ih =>
    intro db cid t ph db' h
    simp only [bcScan] at h
    by_cases h1 : (bcIsBlocked u x.id db : Prop)
    · rw [if_pos h1] at h
      exact ih db cid t ph db' h
    · rw [if_neg h1] at h
      by_cases h2 : (bcWasShown u x.id db : Prop)
      · rw [if_pos h2] at h
        exact ih db cid t ph db' h
      · rw [if_neg h2] at h
        simp only [Prod.mk.injEq, Option.some.injEq] at h
        obtain ⟨rfl, rfl, -, -⟩ := h
        exact bcWasShown_bcMarkShown_self u x.id (bcUpsertCandidate (bcCandRow x) db)

theorem bcScan_mono (photos : Nat → List String) (u : Nat) :
    ∀ (page : List BcCand) (db : DB) (cid : Nat) (t : String) (ph : List String) (db' : DB),
      bcScan photos u page db = (db', some (cid, t, ph)) →
      ∀ x : Nat, bcWasShown u x db = true → bcWasShown u x db' = true := by
  intro page
  induction page with
  | nil => intro db cid t ph db' h; simp [bcScan] at h
  | cons y rest ih =>
    intro db cid t ph db' h x hx
    simp only [bcScan] at h
    by_cases h1 : (bcIsBlocked u y.id db : Prop)
    · rw [if_pos h1] at h
      exact ih db cid t ph db' h x hx
    · rw [if_neg h1] at h
      by_cases h2 : (bcWasShown u y.id db : Prop)
      · rw [if_pos h2] at h
        exact ih db cid t ph db' h x hx
      · rw [if_neg h2] at h
        simp only [Prod.mk.injEq, Option.some.injEq] at h
        obtain ⟨rfl, -, -, -⟩ := h
        exact bcWasShown_bcMarkShown_mono u x u y.id (bcUpsertCandidate (bcCandRow y) db) hx

theorem bcScan_none_db (photos : Nat → List String) (u : Nat) :
    ∀ (page : List BcCand) (db : DB) (db' : DB),
      bcScan photos u page db = (db', none) → db' = db := by
  intro page
  induction page with
  | nil =>
    intro db db' h
    simp only [bcScan, Prod.mk.injEq] at h
    exact h.1.symm
  | cons x rest ih =>
    intro db db' h
    simp only [bcScan] at h
    by_cases h1 : (bcIsBlocked u x.id db : Prop)
    · rw [if_pos h1] at h
      exact ih db db' h
    · rw [if_neg h1] at h
      by_cases h2 : (bcWasShown u x.id db : Prop)
      · rw [if_pos h2] at h
        exact ih db db' h
      · rw [if_neg h2] at h
        simp at h

theorem bcPick_mono (search : BcParams → List BcCand) (photos : Nat → List String)
    (u : Nat) (st : DialogStateB) (db db' : DB) (r : Option (Nat × String × List String)) :
    bcPick search photos u st db = (db', r) →
    ∀ x : Nat, bcWasShown u x db = true → bcWasShown u x db' = true := by
  intro h x hx
  cases ha : st.age with
  | none =>
    simp only [bcPick, ha, Prod.mk.injEq] at h
    obtain ⟨rfl, -⟩ := h
    exact hx
  | some age =>
    simp only [bcPick, ha] at h
    cases hr : r with
    | none =>
      rw [hr] at h
      rw [bcScan_none_db photos u _ db db' h]
      exact hx
    | some v =>
      obtain ⟨cid, t, ph⟩ := v
      rw [hr] at h
      exact bcScan_mono photos u _ db cid t ph db' h x hx

theorem bcPick_some_shown (search : BcParams → List BcCand) (photos : Nat → List String)
    (u : Nat) (st : DialogStateB) (db db' : DB) (cid : Nat) (t : String) (ph : List String) :
    bcPick search photos u st db = (db', some (cid, t, ph)) →
    bcWasShown u cid db' = true := by
  intro h
  cases ha : st.age with
  | none => simp [bcPick, ha] at h
  | some age =>
    simp only [bcPick, ha] at h
    exact bcScan_some_shown photos u _ db cid t ph db' h

theorem bcPick_some_not_shown (search : BcParams → List BcCand) (photos : Nat → List String)
    (u : Nat) (st : DialogStateB) (db db' : DB) (cid : Nat) (t : String) (ph : List String) :
    bcPick search photos u st db = (db', some (cid, t, ph)) →
    bcWasShown u cid db = false := by
  intro h
  cases ha : st.age with
  | none => simp [bcPick, ha] at h
  | some age =>
    simp only [bcPick, ha] at h
    exact bcScan_some_not_shown photos u _ db cid t ph db' h

theorem bcPickIter_mono (search : BcParams → List BcCand) (photos : Nat → List String)
    (u : Nat) (st : DialogStateB) :
    ∀ (n : Nat) (db : DB),
      ∀ x : Nat, bcWasShown u x db = true →
        bcWasShown u x (bcPickIter search photos u st n db) = true := by
  intro n
  induction n with
  | zero =>
    intro db x hx
    simpa [bcPickIter] using hx
  | succ n ih =>
    intro db x hx
    simp only [bcPickIter]
    exact ih _ x (bcPick_mono search photos u st db
      (bcPick search photos u st db).1 (bcPick search photos u st db).2 rfl x hx)

/-- C1: once a discovery invocation (`pick_next_candidate`) has returned a
candidate `c` for user `u`, no later discovery invocation for `u` returns a
candidate with the same id again (in either bot variant): the candidate is
recorded in the shown set (`mark_shown`) before it is returned, the shown
set only ever grows across invocations, and every invocation filters out
candidates in the shown set. This holds whether or not `c` stays in the
upstream result set, so in particular under the claim's proviso. -/
theorem exclusion_invariant :
    (∀ (search : SearchParams → Option (List Cand)) (photos : Nat → List String)
       (userSex u : Nat) (st : DialogState1) (db : DB) (st1 : DialogState1) (db1 : DB)
       (c : Cand) (ph : List String),
       pickNextCandidate search photos userSex u st db = (st1, db1, some (c, ph)) →
       ∀ (n : Nat) (st2 : DialogState1) (db2 : DB) (c2 : Cand) (ph2 : List String),
         pickIter search photos userSex u n st1 db1 = (st2, db2) →
         (pickNextCandidate search photos userSex u st2 db2).2.2 = some (c2, ph2) →
         c2.id ≠ c.id) ∧
    (∀ (search : BcParams → List BcCand) (photos : Nat → List String)
       (u : Nat) (st : DialogStateB) (db db1 : DB) (cid : Nat) (t : String) (ph : List String),
       bcPick search photos u st db = (db1, some (cid, t, ph)) →
       ∀ (n cid2 : Nat) (t2 : String) (ph2 : List String),
         (bcPick search photos u st (bcPickIter search photos u st n db1)).2 =
           some (cid2, t2, ph2) →
         cid2 ≠ cid) := by
  constructor
  · intro search photos userSex u st db st1 db1 c ph h1 n st2 db2 c2 ph2 h2 h3
    have hshown1 : wasShown u c.id db1 = true :=
      pick_some_shown search photos userSex u st db st1 db1 c ph h1
    have hshown2 : wasShown u c.id db2 = true :=
      pickIter_mono search photos userSex u n st1 db1 st2 db2 h2 c.id hshown1
    have h3' : pickNextCandidate search photos userSex u st2 db2 =
        ((pickNextCandidate search photos userSex u st2 db2).1,
         (pickNextCandidate search photos userSex u st2 db2).2.1, some (c2, ph2)) := by
      rw [← h3]
    have hnot : wasShown u c2.id db2 = false :=
      pick_some_not_shown search photos userSex u st2 db2 _ _ c2 ph2 h3'
    intro heq
    rw [heq] at hnot
    rw [hnot] at hshown2
    exact Bool.false_ne_true hshown2
  · intro search photos u st db db1 cid t ph h1 n cid2 t2 ph2 h3
    have hshown1 : bcWasShown u cid db1 = true :=
      bcPick_some_shown search photos u st db db1 cid t ph h1
    have hshown2 : bcWasShown u cid (bcPickIter search photos u st n db1) = true :=
      bcPickIter_mono search photos u st n db1 cid hshown1
    have h3' : bcPick search photos u st (bcPickIter search photos u st n db1) =
        ((bcPick search photos u st (bcPickIter search photos u st n db1)).1,
         some (cid2, t2, ph2)) := by
      rw [← h3]
    have hnot : bcWasShown u cid2 (bcPickIter search photos u st n db1) = false :=
      bcPick_some_not_shown search photos u st _ _ cid2 t2 ph2 h3'
    intro heq
    rw [heq] at hnot
    rw [hnot] at hshown2
    exact Bool.false_ne_true hshown2

/-- Witness for C1: a concrete run in each variant. With a directory
returning the same open candidates 7 and 8 on every page, the first
invocation returns candidate 7 and the next invocation returns candidate
8, necessarily different from 7. -/
theorem exclusion_invariant_witness :
    demoCand8.id ≠ demoCand7.id ∧ (8 : Nat) ≠ 7 := by
  constructor
  · exact exclusion_invariant.1 demoSearch (fun _ => []) 0 1 demoReadySt emptyDB
      _ _ demoCand7 [] rfl 0 _ _ demoCand8 [] rfl rfl
  · exact exclusion_invariant.2 demoBcSearch (fun _ => []) 1 demoBcSt emptyDB
      _ 7 _ [] rfl 0 8 _ [] rfl

theorem addFavorite_blacklist (u c : Nat) (db : DB) :
    (addFavorite u c db).blacklist = db.blacklist := by
  unfold addFavorite
  split <;> rfl

theorem addBlacklist_favorites (u c : Nat) (db : DB) :
    (addBlacklist u c db).favorites = db.favorites := by
  unfold addBlacklist
  split <;> rfl

theorem pairMem_append_self (u c : Nat) :
    ∀ l : List (Nat × Nat), pairMem u c (l ++ [(u, c)]) = true := by
  intro l
  induction l with
  | nil => simp [pairMem]
  | cons p rest ih => simp [pairMem, ih]

theorem pairMem_addFavorite_self (u c : Nat) (db : DB) :
    pairMem u c (addFavorite u c db).favorites = true := by
  unfold addFavorite
  split
  · assumption
  · exact pairMem_append_self u c db.favorites

theorem mem_listFavorites_of_pairMem (u c : Nat) :
    ∀ l : List (Nat × Nat), pairMem u c l = true →
      c ∈ (l.filter (fun p => p.1 == u)).map (·.2) := by
  intro l
  induction l with
  | nil => simp [pairMem]
  | cons p rest ih =>
    intro hm
    simp only [pairMem, Bool.or_eq_true, Bool.and_eq_true, beq_iff_eq] at hm
    by_cases hp : p.1 = u
    · simp only [List.filter_cons, hp, beq_self_eq_true, if_pos, List.map_cons]
      rcases hm with ⟨-, rfl⟩ | hrest
      · exact List.mem_cons_self _ _
      · exact List.mem_cons_of_mem _ (ih hrest)
    · have hrest : pairMem u c rest = true := by
        rcases hm with ⟨h1, -⟩ | hrest
        · exact absurd h1 hp
        · simpa [pairMem] using hrest
      simpa [List.filter_cons, hp] using ih hrest

theorem getReaction_addBlacklist (u c : Nat) (db : DB)
    (hbl : pairMem u c db.blacklist = false) :
    getReaction u c (addBlacklist u c db) = some "blocked" := by
  unfold addBlacklist
  rw [if_neg (by simp [hbl])]
  simp only [getReaction]
  rw [findSH_setReactionHist]

theorem getReaction_addFavorite (u c : Nat) (db : DB)
    (hfav : pairMem u c db.favorites = false) :
    getReaction u c (addFavorite u c db) = some "liked" := by
  unfold addFavorite
  rw [if_neg (by simp [hfav])]
  simp only [getReaction]
  rw [findSH_setReactionHist]

/-- C2 counterexample: on the empty database, recording a Favorite for
user 1 and candidate 2 via `Repo.add_favorite` and then a Blacklist via
`Repo.add_blacklist` leaves the stored reaction `"blocked"`, yet
candidate 2 is still returned by `Repo.list_favorites` — the claim's
"c is absent from listFavorites(u)" is false on the code. -/
theorem reaction_exclusivity_cex :
    getReaction 1 2 (addBlacklist 1 2 (addFavorite 1 2 emptyDB)) = some "blocked" ∧
    2 ∈ listFavorites 1 (addBlacklist 1 2 (addFavorite 1 2 emptyDB)) := by
  refine ⟨rfl, ?_⟩
  show (2 : Nat) ∈ [2]
  simp

/-- C2 amended: for every user `u`, candidate `c` and database in which
`(u, c)` is not yet blacklisted, after `add_favorite(u, c)` followed by
`add_blacklist(u, c)` the stored reaction is `"blocked"`, but `c`
remains in `list_favorites(u)`: blacklisting sets the reaction without
removing the favorites row, so the pair ends up in both sets. -/
theorem reaction_exclusivity_amended (u c : Nat) (db : DB)
    (hbl : inBlacklist u c db = false) :
    getReaction u c (addBlacklist u c (addFavorite u c db)) = some "blocked" ∧
    c ∈ listFavorites u (addBlacklist u c (addFavorite u c db)) := by
  have hbl1 : pairMem u c (addFavorite u c db).blacklist = false := by
    rw [addFavorite_blacklist]
    exact hbl
  constructor
  · exact getReaction_addBlacklist u c (addFavorite u c db) hbl1
  · unfold listFavorites
    rw [addBlacklist_favorites]
    exact mem_listFavorites_of_pairMem u c _ (pairMem_addFavorite_self u c db)

/-- Witness for C2's amended theorem at user 3, candidate 4, empty database. -/
theorem reaction_exclusivity_witness :
    inBlacklist 3 4 emptyDB = false ∧
    (getReaction 3 4 (addBlacklist 3 4 (addFavorite 3 4 emptyDB)) = some "blocked" ∧
     4 ∈ listFavorites 3 (addBlacklist 3 4 (addFavorite 3 4 emptyDB))) :=
  ⟨rfl, reaction_exclusivity_amended 3 4 emptyDB rfl⟩

theorem bcAddToFavorites_history (u c : Nat) (db : DB) :
    (bcAddToFavorites u c db).history = db.history := by
  unfold bcAddToFavorites
  split <;> rfl

/-- C10: recording a Favorite through the `repo.py` variant writes the
reaction string `"liked"` into the search-history row of a fresh
`(user, candidate)` pair, and `"liked"` is outside the value set admitted
by the `check_reaction` constraint of the `SearchHistory` table; the
`basic_code.py` variant writes `"licked"` (onto an existing history row),
which the constraint does admit. -/
theorem reaction_domain_mismatch :
    (∀ (u c : Nat) (db : DB), pairMem u c db.favorites = false →
       getReaction u c (addFavorite u c db) = some "liked") ∧
    ¬ checkReaction (some "liked") ∧
    (∀ (u c : Nat) (db : DB), (findSH u c db.history).isSome = true →
       getReaction u c (bcAddFavorite u c db) = some "licked") ∧
    checkReaction (some "licked") := by
  refine ⟨?_, ?_, ?_, ?_⟩
  · intro u c db hfav
    exact getReaction_addFavorite u c db hfav
  · intro h
    rcases h with h | h | h <;> simp at h
  · intro u c db hfound
    unfold bcAddFavorite
    simp only [getReaction]
    rw [findSH_bcSetReactionHist u c "licked" _ (by rw [bcAddToFavorites_history]; exact hfound)]
  · exact Or.inl rfl

/-- Witness for C10 at user 5, candidate 6: the repo variant stores
`"liked"` on the empty database; the basic variant stores `"licked"`
after the candidate has been marked shown. -/
theorem reaction_domain_mismatch_witness :
    getReaction 5 6 (addFavorite 5 6 emptyDB) = some "liked" ∧
    getReaction 5 6 (bcAddFavorite 5 6 (bcMarkShown 5 6 emptyDB)) = some "licked" :=
  ⟨reaction_domain_mismatch.1 5 6 emptyDB rfl,
   reaction_domain_mismatch.2.2.1 5 6 (bcMarkShown 5 6 emptyDB) rfl⟩

theorem scanPage_none_of_excluded (photos : Nat → List String) (u : Nat) (db : DB) :
    ∀ page : List Cand, (∀ c ∈ page, excludedCand u db c) →
      scanPage photos u page db = none := by
  intro page
  induction page with
  | nil => intro; rfl
  | cons x rest ih =>
    intro hall
    have hx := hall x (List.mem_cons_self x rest)
    have hrest : ∀ c ∈ rest, excludedCand u db c := fun c hc => hall c (List.mem_cons_of_mem x hc)
    simp only [scanPage]
    by_cases h1 : x.is_closed ∧ ¬ x.can_access_closed
    · rw [if_pos h1]
      exact ih hrest
    · rw [if_neg h1]
      by_cases h2 : (inBlacklist u x.id db : Prop)
      · rw [if_pos h2]
        exact ih hrest
      · rw [if_neg h2]
        by_cases h3 : (wasShown u x.id db : Prop)
        · rw [if_pos h3]
          exact ih hrest
        · rw [if_neg h3]
          exfalso
          rcases hx with ⟨hc1, hc2⟩ | hbl | hsh
          · exact h1 ⟨hc1, by simp [hc2]⟩
          · exact h2 hbl
          · exact h3 hsh

theorem pickLoop_exhausted (search : SearchParams → Option (List Cand))
    (photos : Nat → List String) (sx cid : Nat) (a1 a2 : Int) (u : Nat) :
    ∀ (n : Nat) (st : DialogState1) (db : DB),
      (∀ i < n, ∃ page, search ⟨cid, a1, a2, sx, st.offset + 50 * i, 50⟩ = some page ∧
        ∀ c ∈ page, excludedCand u db c) →
      pickLoop search photos sx cid a1 a2 u n st db =
        ({ st with offset := st.offset + 50 * n }, db, none) := by
  intro n
  induction n with
  | zero =>
    intro st db _
    simp [pickLoop]
  | succ n ih =>
    intro st db hpages
    obtain ⟨page0, hs0, hex0⟩ := hpages 0 (Nat.succ_pos n)
    rw [Nat.mul_zero, Nat.add_zero] at hs0
    have hscan : scanPage photos u page0 db = none :=
      scanPage_none_of_excluded photos u db page0 hex0
    have hrec := ih { st with offset := st.offset + 50 } db (by
      intro i hi
      obtain ⟨page, hs, hex⟩ := hpages (i + 1) (Nat.succ_lt_succ hi)
      refine ⟨page, ?_, hex⟩
      have harith : st.offset + 50 * (i + 1) = st.offset + 50 + 50 * i := by ring
      rw [harith] at hs
      exact hs)
    simp only [pickLoop, hs0, hscan]
    rw [hrec]
    have harith2 : st.offset + 50 + 50 * n = st.offset + 50 * (n + 1) := by ring
    simp [harith2]

theorem pickLoop_offset_mono (search : SearchParams → Option (List Cand))
    (photos : Nat → List String) (sx cid : Nat) (a1 a2 : Int) (u : Nat) :
    ∀ (n : Nat) (st : DialogState1) (db : DB),
      st.offset ≤ (pickLoop search photos sx cid a1 a2 u n st db).1.offset := by
  intro n
  induction n with
  | zero => intro st db; simp [pickLoop]
  | succ n ih =>
    intro st db
    cases hs : search ⟨cid, a1, a2, sx, st.offset, 50⟩ with
    | none => simp [pickLoop, hs]
    | some page =>
      cases hsc : scanPage photos u page db with
      | none =>
        simp only [pickLoop, hs, hsc]
        calc st.offset ≤ st.offset + 50 := Nat.le_add_right _ _
          _ ≤ _ := by
              have := ih { st with offset := st.offset + 50 } db
              simpa using this
      | some v =>
        obtain ⟨c, ph, db1⟩ := v
        simp [pickLoop, hs, hsc, Nat.le_add_right]

theorem pickNextCandidate_ready (search : SearchParams → Option (List Cand))
    (photos : Nat → List String) (userSex u : Nat) (st : DialogState1) (db : DB)
    (cid : Nat) (age : Int) (hc : st.city_id = some cid) (ha : st.age = some age) :
    pickNextCandidate search photos userSex u st db =
      pickLoop search photos (searchSexOf userSex) cid (ageFrom age) (ageTo age) u 10 st db := by
  unfold pickNextCandidate
  rw [hc, ha]

/-- C3: for a Ready state of the paginated variant, if the directory
search succeeds and yields only excluded candidates (access-restricted,
blacklisted or already shown) on each of the 10 consecutive pages of
size 50 requested starting at the stored offset, the discovery
invocation returns `None`, leaves the database untouched and has
advanced the stored offset by exactly 500; moreover the offset is
advanced by the page size after every successful request and is never
rewound — for every invocation the resulting offset is at least the
starting one. -/
theorem pagination_termination :
    (∀ (search : SearchParams → Option (List Cand)) (photos : Nat → List String)
       (userSex u : Nat) (st : DialogState1) (db : DB) (cid : Nat) (age : Int),
       st.city_id = some cid → st.age = some age →
       (∀ i < 10, ∃ page,
          search ⟨cid, ageFrom age, ageTo age, searchSexOf userSex, st.offset + 50 * i, 50⟩ =
            some page ∧ ∀ c ∈ page, excludedCand u db c) →
       pickNextCandidate search photos userSex u st db =
         ({ st with offset := st.offset + 500 }, db, none)) ∧
    (∀ (search : SearchParams → Option (List Cand)) (photos : Nat → List String)
       (userSex u : Nat) (st : DialogState1) (db : DB),
       st.offset ≤ (pickNextCandidate search photos userSex u st db).1.offset) := by
  constructor
  · intro search photos userSex u st db cid age hc ha hpages
    rw [pickNextCandidate_ready search photos userSex u st db cid age hc ha,
      pickLoop_exhausted search photos (searchSexOf userSex) cid (ageFrom age) (ageTo age)
        u 10 st db hpages]
  · intro search photos userSex u st db
    cases hc : st.city_id with
    | none => simp [pickNextCandidate, hc]
    | some cid =>
      cases ha : st.age with
      | none => simp [pickNextCandidate, hc, ha]
      | some age =>
        simp only [pickNextCandidate, hc, ha]
        exact pickLoop_offset_mono search photos (searchSexOf userSex) cid (ageFrom age)
          (ageTo age) u 10 st db

/-- Witness for C3: a directory returning an empty (hence all-excluded)
page at every offset makes the invocation return `None` with the offset
advanced from 0 to 500; the monotonicity conjunct instantiated on the
two-candidate demo search. -/
theorem pagination_termination_witness :
    pickNextCandidate (fun _ => some []) (fun _ => []) 0 1 demoReadySt emptyDB =
      ({ demoReadySt with offset := demoReadySt.offset + 500 }, emptyDB, none) ∧
    demoReadySt.offset ≤
      (pickNextCandidate demoSearch (fun _ => []) 0 1 demoReadySt emptyDB).1.offset := by
  constructor
  · exact pagination_termination.1 (fun _ => some []) (fun _ => []) 0 1 demoReadySt emptyDB
      1 25 rfl rfl (fun i _ => ⟨[], rfl, by simp⟩)
  · exact pagination_termination.2 demoSearch (fun _ => []) 0 1 demoReadySt emptyDB

/-- C4: in either variant, when the age handler receives text that does
not parse as an integer, or parses to an integer outside [18, 99], the
dialog state is left completely unchanged (so `awaiting` stays on the
age step and `age` stays unset) and only the error prompt is emitted;
an integer in [18, 99] stores the age and clears `awaiting`, reaching
Ready. -/
theorem onboarding_age_validation :
    (∀ (st : DialogState1) (text : String),
       (pyInt? text = none → handleAge1 st text = (st, msgAgeErr)) ∧
       (∀ a : Int, pyInt? text = some a → (a < 18 ∨ a > 99) →
          handleAge1 st text = (st, msgAgeErr)) ∧
       (∀ a : Int, pyInt? text = some a → 18 ≤ a → a ≤ 99 →
          handleAge1 st text = ({ st with age := some a, awaiting := none }, msgAgeOk1))) ∧
    (∀ (st : DialogStateB) (text : String),
       (pyInt? text = none → handleAgeB st text = (st, msgAgeErr)) ∧
       (∀ a : Int, pyInt? text = some a → (a < 18 ∨ a > 99) →
          handleAgeB st text = (st, msgAgeErr)) ∧
       (∀ a : Int, pyInt? text = some a → 18 ≤ a → a ≤ 99 →
          handleAgeB st text = ({ st with age := some a, awaiting := none }, msgAgeOkB a))) := by
  constructor
  · intro st text
    refine ⟨?_, ?_, ?_⟩
    · intro h
      unfold handleAge1
      rw [h]
    · intro a h hout
      unfold handleAge1
      rw [h]
      simp only [if_pos hout]
    · intro a h h1 h2
      unfold handleAge1
      rw [h]
      simp only [if_neg (show ¬(a < 18 ∨ a > 99) by omega)]
  · intro st text
    refine ⟨?_, ?_, ?_⟩
    · intro h
      unfold handleAgeB
      rw [h]
    · intro a h hout
      unfold handleAgeB
      rw [h]
      simp only [if_pos hout]
    · intro a h h1 h2
      unfold handleAgeB
      rw [h]
      simp only [if_neg (show ¬(a < 18 ∨ a > 99) by omega)]

/-- Witness for C4 at the claim's example inputs "abc", "150", "25". -/
theorem onboarding_age_validation_witness :
    handleAge1 {} "abc" = ({}, msgAgeErr) ∧
    handleAge1 {} "150" = ({}, msgAgeErr) ∧
    handleAge1 {} "25" = ({ ({} : DialogState1) with age := some 25, awaiting := none },
      msgAgeOk1) ∧
    handleAgeB {} "abc" = ({}, msgAgeErr) ∧
    handleAgeB {} "150" = ({}, msgAgeErr) ∧
    handleAgeB {} "25" = ({ ({} : DialogStateB) with age := some 25, awaiting := none },
      msgAgeOkB 25) := by
  refine ⟨?_, ?_, ?_, ?_, ?_, ?_⟩
  · exact (onboarding_age_validation.1 {} "abc").1 (by rfl)
  · exact (onboarding_age_validation.1 {} "150").2.1 150 (by rfl) (by norm_num)
  · exact (onboarding_age_validation.1 {} "25").2.2 25 (by rfl) (by norm_num) (by norm_num)
  · exact (onboarding_age_validation.2 {} "abc").1 (by rfl)
  · exact (onboarding_age_validation.2 {} "150").2.1 150 (by rfl) (by norm_num)
  · exact (onboarding_age_validation.2 {} "25").2.2 25 (by rfl) (by norm_num) (by norm_num)

/-- C5: in either variant, a Favorite or Blacklist command with
`last_candidate_id` unset only sends the guidance message and performs
no writes: the dialog state and the entire database (favorites,
blacklist and search-history tables included) are returned unchanged. -/
theorem reaction_precondition :
    (∀ (u : Nat) (st : DialogState1) (db : DB), st.last_candidate_id = none →
       handleFavorite1 u st db = (st, db, msgPressNext) ∧
       handleBlacklist1 u st db = (st, db, msgPressNext)) ∧
    (∀ (u : Nat) (st : DialogStateB) (db : DB), st.last_candidate_id = none →
       handleFavoriteB u st db = (st, db, msgPressNext) ∧
       handleBlacklistB u st db = (st, db, msgPressNext)) := by
  constructor
  · intro u st db h
    constructor
    · unfold handleFavorite1
      rw [h]
    · unfold handleBlacklist1
      rw [h]
  · intro u st db h
    constructor
    · unfold handleFavoriteB
      rw [h]
    · unfold handleBlacklistB
      rw [h]

/-- Witness for C5 on fresh dialog states and the empty database. -/
theorem reaction_precondition_witness :
    (handleFavorite1 1 {} emptyDB = ({}, emptyDB, msgPressNext) ∧
     handleBlacklist1 1 {} emptyDB = ({}, emptyDB, msgPressNext)) ∧
    (handleFavoriteB 1 {} emptyDB = ({}, emptyDB, msgPressNext) ∧
     handleBlacklistB 1 {} emptyDB = ({}, emptyDB, msgPressNext)) :=
  ⟨reaction_precondition.1 1 {} emptyDB rfl, reaction_precondition.2 1 {} emptyDB rfl⟩

/-- C6: the discovery search band is `ageFrom = max(18, age - 5)` and
`ageTo = min(99, age + 5)` for every age, and in particular age 30
yields [25, 35], age 19 yields [18, 24] (floor clamp) and age 97 yields
[92, 99] (ceiling clamp). -/
theorem age_band_correctness :
    (∀ age : Int, ageFrom age = max 18 (age - 5) ∧ ageTo age = min 99 (age + 5)) ∧
    ageFrom 30 = 25 ∧ ageTo 30 = 35 ∧
    ageFrom 19 = 18 ∧ ageTo 19 = 24 ∧
    ageFrom 97 = 92 ∧ ageTo 97 = 99 := by
  refine ⟨fun age => ⟨rfl, rfl⟩, ?_, ?_, ?_, ?_, ?_, ?_⟩ <;> decide

/-- C8: a discovery invocation on a dialog state that is not Ready
returns `None` immediately, with the state and database unchanged and —
since the result is the same for every search collaborator — no search
request performed: in the paginated variant when the city or the age is
unresolved, in the single-page variant when the age is unresolved. -/
theorem discovery_requires_ready :
    (∀ (search : SearchParams → Option (List Cand)) (photos : Nat → List String)
       (userSex u : Nat) (st : DialogState1) (db : DB),
       st.city_id = none ∨ st.age = none →
       pickNextCandidate search photos userSex u st db = (st, db, none)) ∧
    (∀ (search : BcParams → List BcCand) (photos : Nat → List String)
       (u : Nat) (st : DialogStateB) (db : DB),
       st.age = none → bcPick search photos u st db = (db, none)) := by
  constructor
  · intro search photos userSex u st db h
    rcases h with hc | ha
    · unfold pickNextCandidate
      rw [hc]
    · cases hc : st.city_id with
      | none =>
        unfold pickNextCandidate
        rw [hc]
      | some cid =>
        unfold pickNextCandidate
        rw [hc, ha]
  · intro search photos u st db h
    unfold bcPick
    rw [h]

/-- Witness for C8 on fresh (fully unresolved) dialog states. -/
theorem discovery_requires_ready_witness :
    pickNextCandidate demoSearch (fun _ => []) 0 1 {} emptyDB = ({}, emptyDB, none) ∧
    bcPick demoBcSearch (fun _ => []) 1 {} emptyDB = (emptyDB, none) :=
  ⟨discovery_requires_ready.1 demoSearch (fun _ => []) 0 1 {} emptyDB (Or.inl rfl),
   discovery_requires_ready.2 demoBcSearch (fun _ => []) 1 {} emptyDB rfl⟩

/-- C9: `basic_code.handle_sex` lower-cases the (stripped) input and
tests the substrings "жен", "муж", "неваж" in that fixed order: the
first match sets `target_sex` to Female, Male or Any respectively and
advances `awaiting` to the age step; when no rule matches, the state is
returned unchanged and the re-prompt is emitted. -/
theorem sex_selection_rules :
    ∀ (st : DialogStateB) (text : String),
      (strIn "жен" (pyLower (pyStrip text)) = true →
        handleSexB st text =
          ({ st with target_sex := .women, awaiting := some "age" }, msgSexOk "женщин")) ∧
      (strIn "жен" (pyLower (pyStrip text)) = false →
       strIn "муж" (pyLower (pyStrip text)) = true →
        handleSexB st text =
          ({ st with target_sex := .men, awaiting := some "age" }, msgSexOk "мужчин")) ∧
      (strIn "жен" (pyLower (pyStrip text)) = false →
       strIn "муж" (pyLower (pyStrip text)) = false →
       strIn "неваж" (pyLower (pyStrip text)) = true →
        handleSexB st text =
          ({ st with target_sex := .all, awaiting := some "age" }, msgSexOk "всех")) ∧
      (strIn "жен" (pyLower (pyStrip text)) = false →
       strIn "муж" (pyLower (pyStrip text)) = false →
       strIn "неваж" (pyLower (pyStrip text)) = false →
        handleSexB st text = (st, msgSexRetry)) := by
  intro st text
  refine ⟨?_, ?_, ?_, ?_⟩
  · intro h1
    simp [handleSexB, h1]
  · intro h1 h2
    simp [handleSexB, h1, h2]
  · intro h1 h2 h3
    simp [handleSexB, h1, h2, h3]
  · intro h1 h2 h3
    simp [handleSexB, h1, h2, h3]

/-- Witness for C9 at the four representative inputs. -/
theorem sex_selection_rules_witness :
    handleSexB {} "Женщину" =
      ({ ({} : DialogStateB) with target_sex := .women, awaiting := some "age" },
       msgSexOk "женщин") ∧
    handleSexB {} "Мужчину" =
      ({ ({} : DialogStateB) with target_sex := .men, awaiting := some "age" },
       msgSexOk "мужчин") ∧
    handleSexB {} "Неважно" =
      ({ ({} : DialogStateB) with target_sex := .all, awaiting := some "age" },
       msgSexOk "всех") ∧
    handleSexB {} "привет" = ({}, msgSexRetry) := by
  refine ⟨?_, ?_, ?_, ?_⟩
  · exact (sex_selection_rules {} "Женщину").1 (by rfl)
  · exact (sex_selection_rules {} "Мужчину").2.1 (by rfl) (by rfl)
  · exact (sex_selection_rules {} "Неважно").2.2.1 (by rfl) (by rfl) (by rfl)
  · exact (sex_selection_rules {} "привет").2.2.2 (by rfl) (by rfl) (by rfl)

/-- C7 counterexample: in the `bot_body1` variant, a start command does
not reset `last_candidate_id`: starting onboarding again while candidate
42 is active leaves candidate 42 active, so the claim's "resets the
dialog state's lastCandidateId" is false on that code path. -/
theorem start_resets_cex :
    (handleStart1 (some demoProfile1) 1 demoShownSt emptyDB).1.last_candidate_id = some 42 ∧
    (handleStart1 (some demoProfile1) 1 demoShownSt emptyDB).1.last_candidate_id ≠ none := by
  refine ⟨rfl, ?_⟩
  intro h
  exact Option.noConfusion (show some 42 = (none : Option Nat) from h)

/-- C7 amended: the `basic_code` variant's start handler always clears
`lastCandidateId` (before re-entering onboarding, which then awaits the
sex step on success and nothing on profile failure); the `bot_body1`
variant's start handler leaves `lastCandidateId` exactly as it was. -/
theorem start_resets_amended :
    (∀ (profile : Option ProfileB) (u : Nat) (st : DialogStateB) (db : DB),
       (handleStartB profile u st db).1.last_candidate_id = none) ∧
    (∀ (me : ProfileB) (u : Nat) (st : DialogStateB) (db : DB),
       (handleStartB (some me) u st db).1.awaiting = some "sex") ∧
    (∀ (u : Nat) (st : DialogStateB) (db : DB),
       (handleStartB none u st db).1.awaiting = none) ∧
    (∀ (profile : Option Profile1) (u : Nat) (st : DialogState1) (db : DB),
       (handleStart1 profile u st db).1.last_candidate_id = st.last_candidate_id) := by
  refine ⟨?_, ?_, ?_, ?_⟩
  · intro profile u st db
    cases profile with
    | none => rfl
    | some me => rfl
  · intro me u st db
    rfl
  · intro u st db
    rfl
  · intro profile u st db
    cases profile with
    | none => rfl
    | some p =>
      simp only [handleStart1]
      cases hpc : p.city with
      | none => split <;> rfl
      | some c =>
        by_cases hid : c.id = 0
        · simp only [hid, ne_eq, not_true_eq_false, if_false]
          split <;> rfl
        · simp only [ne_eq, hid, not_false_eq_true, if_true]
          split <;> rfl
